import Mathlib

/-
Verification of the serena-claude-plugin core: a shallow Lean embedding of
the session-aware MCP RPC client (serena/cli/client.py), the persistent
session store (serena/cli/session.py) and the circuit-breaker connector
(serena/connector.py), together with theorems settling the stated
behavioural claims.

Modelling conventions:
  * JSON values are the inductive `Json`; Python dicts appearing in the
    protocol become `Json.obj` with an association list of members.
  * Python `json.loads` is modelled by `json_loads`, an executable
    recursive-descent parser for the JSON fragment this client exchanges
    (null / true / false / integer numbers / strings with the common
    escapes / arrays / objects).  Inputs outside that fragment (floats,
    exponents, \u escapes) make `json_loads` return `none`, i.e. they are
    treated like a decode error.
  * `time.time()` readings are threaded through the functions as explicit
    integer-valued clock parameters; only order and differences of clock
    readings matter to the code under verification.
  * Exceptions become `Except` / explicit error fields; an operation that
    mutates `self` returns the updated state.
  * httpx transport effects are abstracted into an `HttpResponse` record
    (whether `raise_for_status` succeeded, the stringified error, and the
    body text); the client code under verification only consumes these.
-/

namespace SerenaSpec

/-! ## JSON value model -/

inductive Json where
  | null : Json
  | bool (b : Bool) : Json
  | num (n : Int) : Json
  | str (s : String) : Json
  | arr (elems : List Json) : Json
  | obj (members : List (String × Json)) : Json

/-- First-match association-list lookup, the model of Python `dict.get` /
`in` on the JSON objects this client handles (dict keys are unique, so
first-match agrees with dict lookup). -/
def alookup {α : Type} : List (String × α) → String → Option α
  | [], _ => none
  | (k, v) :: rest, key => if k = key then some v else alookup rest key

/-- `d.get(k)` on a JSON object; `none` for an absent key.  On a non-object
this returns `none` (the Python code under verification only reaches these
lookups with dict-shaped data). -/
def Json.getKey? (j : Json) (k : String) : Option Json :=
  match j with
  | .obj members => alookup members k
  | _ => none

/-- `d.get(k, default)` on a JSON object. -/
def Json.getKeyD (j : Json) (k : String) (d : Json) : Json :=
  (j.getKey? k).getD d

/-! ## The `json.loads` model

An executable recursive-descent parser, with fuel for termination.  The
characters `\x7b`, `\x7d` and `\x22` (braces and double quote) are named
explicitly. -/

def lbraceC : Char := Char.ofNat 123

def rbraceC : Char := Char.ofNat 125

def quoteC : Char := Char.ofNat 34

/-- `pattern.data` is a leading segment of the character list. -/
def startsWithChars : List Char → List Char → Bool
  | [], _ => true
  | _ :: _, [] => false
  | p :: ps, c :: cs => p = c && startsWithChars ps cs

/-- Python `s.startswith(pat)` (by code points, as Python slices strings). -/
def strStartsWith (s pat : String) : Bool :=
  startsWithChars pat.data s.data

/-- Python `s[n:]`. -/
def strDrop (s : String) (n : Nat) : String :=
  String.mk (s.data.drop n)

def splitLinesAux : List Char → List Char → List String
  | [], acc => [String.mk acc.reverse]
  | c :: rest, acc =>
    if c = '\n' then String.mk acc.reverse :: splitLinesAux rest []
    else splitLinesAux rest (c :: acc)

/-- Python `s.split("\n")`. -/
def split_newline (s : String) : List String :=
  splitLinesAux s.data []

/-- Python `sep.join(parts)`. -/
def joinWith (sep : String) : List String → String
  | [] => ""
  | [x] => x
  | x :: xs => x ++ sep ++ joinWith sep xs

def isWsC (c : Char) : Bool :=
  c = ' ' || c = '\n' || c = '\t' || c = '\r'

def skipWs (cs : List Char) : List Char :=
  cs.dropWhile isWsC

def parseStringBody : List Char → Option (String × List Char)
  | [] => none
  | c :: rest =>
    if c = quoteC then some ("", rest)
    else if c = '\\' then
      match rest with
      | [] => none
      | e :: rest2 =>
        let ec : Option Char :=
          if e = quoteC then some quoteC
          else if e = '\\' then some '\\'
          else if e = '/' then some '/'
          else if e = 'n' then some '\n'
          else if e = 't' then some '\t'
          else if e = 'r' then some '\r'
          else none
        match ec with
        | none => none
        | some d =>
          match parseStringBody rest2 with
          | some (s, r) => some (String.mk (d :: s.data), r)
          | none => none
    else
      match parseStringBody rest with
      | some (s, r) => some (String.mk (c :: s.data), r)
      | none => none

def digitsToNat (acc : Nat) : List Char → Nat × List Char
  | [] => (acc, [])
  | c :: rest =>
    if c.isDigit then digitsToNat (acc * 10 + (c.toNat - 48)) rest
    else (acc, c :: rest)

def parseNumTail (sign : Bool) (cs : List Char) : Option (Int × List Char) :=
  match cs with
  | c :: _ =>
    if c.isDigit then
      let (n, r) := digitsToNat 0 cs
      match r with
      | d :: _ =>
        if d = '.' || d = 'e' || d = 'E' then none
        else some (if sign then -(n : Int) else (n : Int), r)
      | [] => some (if sign then -(n : Int) else (n : Int), r)
    else none
  | [] => none

def parseNumber (cs : List Char) : Option (Int × List Char) :=
  match cs with
  | '-' :: rest => parseNumTail true rest
  | _ => parseNumTail false cs

mutual

def parseValue : Nat → List Char → Option (Json × List Char)
  | 0, _ => none
  | Nat.succ fuel, cs =>
    match skipWs cs with
    | [] => none
    | c :: rest =>
      if c = quoteC then
        match parseStringBody rest with
        | some (s, r) => some (Json.str s, r)
        | none => none
      else if c = lbraceC then
        match parseMembersStart fuel rest with
        | some (ms, r) => some (Json.obj ms, r)
        | none => none
      else if c = '[' then
        match parseElemsStart fuel rest with
        | some (vs, r) => some (Json.arr vs, r)
        | none => none
      else if c = 't' then
        match c :: rest with
        | 't' :: 'r' :: 'u' :: 'e' :: r => some (Json.bool true, r)
        | _ => none
      else if c = 'f' then
        match c :: rest with
        | 'f' :: 'a' :: 'l' :: 's' :: 'e' :: r => some (Json.bool false, r)
        | _ => none
      else if c = 'n' then
        match c :: rest with
        | 'n' :: 'u' :: 'l' :: 'l' :: r => some (Json.null, r)
        | _ => none
      else
        match parseNumber (c :: rest) with
        | some (n, r) => some (Json.num n, r)
        | none => none

def parseElemsStart : Nat → List Char → Option (List Json × List Char)
  | 0, _ => none
  | Nat.succ fuel, cs =>
    match skipWs cs with
    | ']' :: rest => some ([], rest)
    | _ =>
      match parseValue fuel cs with
      | none => none
      | some (v, r) =>
        match parseElemsRest fuel r with
        | some (vs, r2) => some (v :: vs, r2)
        | none => none

def parseElemsRest : Nat → List Char → Option (List Json × List Char)
  | 0, _ => none
  | Nat.succ fuel, cs =>
    match skipWs cs with
    | ']' :: rest => some ([], rest)
    | ',' :: rest =>
      match parseValue fuel rest with
      | none => none
      | some (v, r) =>
        match parseElemsRest fuel r with
        | some (vs, r2) => some (v :: vs, r2)
        | none => none
    | _ => none

def parseMembersStart : Nat → List Char → Option (List (String × Json) × List Char)
  | 0, _ => none
  | Nat.succ fuel, cs =>
    match skipWs cs with
    | c :: rest =>
      if c = rbraceC then some ([], rest)
      else
        match parseMember fuel (c :: rest) with
        | none => none
        | some (kv, r) =>
          match parseMembersRest fuel r with
          | some (ms, r2) => some (kv :: ms, r2)
          | none => none
    | [] => none

def parseMembersRest : Nat → List Char → Option (List (String × Json) × List Char)
  | 0, _ => none
  | Nat.succ fuel, cs =>
    match skipWs cs with
    | c :: rest =>
      if c = rbraceC then some ([], rest)
      else if c = ',' then
        match parseMember fuel rest with
        | none => none
        | some (kv, r) =>
          match parseMembersRest fuel r with
          | some (ms, r2) => some (kv :: ms, r2)
          | none => none
      else none
    | [] => none

def parseMember : Nat → List Char → Option ((String × Json) × List Char)
  | 0, _ => none
  | Nat.succ fuel, cs =>
    match skipWs cs with
    | q :: rest =>
      if q = quoteC then
        match parseStringBody rest with
        | none => none
        | some (k, r) =>
          match skipWs r with
          | ':' :: r2 =>
            match parseValue fuel r2 with
            | none => none
            | some (v, r3) => some ((k, v), r3)
          | _ => none
      else none
    | [] => none

end

/-- Model of Python `json.loads`: parse one JSON document, allow surrounding
whitespace, reject trailing content; `none` models `json.JSONDecodeError`. -/
def json_loads (s : String) : Option Json :=
  match parseValue (s.length + 1) s.data with
  | some (j, rest) => if (skipWs rest).isEmpty then some j else none
  | none => none

/-! ## serena/cli/client.py — errors, results, symbol kinds -/

/-- `ToolError(message, tool, details)`.  The message is kept as a `Json`
value because `error.get("message", ...)` can hand the constructor an
arbitrary decoded value; `details or \x7b\x7d` makes `details` an object. -/
structure ToolError where
  message : Json
  tool : String
  details : Json

/-- The exception taxonomy of client.py (`SerenaError` subclasses). -/
inductive SerenaError where
  | connectionError (message : String)
  | sessionError (message : String)
  | toolError (e : ToolError)

/-- `ToolResult` dataclass. -/
structure ToolResult where
  data : Json
  tool : String
  elapsed_ms : Int
  request_id : Nat

/-- The `SymbolKind` `Literal` type of client.py. -/
inductive SymbolKind where
  | kNamespace | kClass | kMethod | kProperty | kInterface | kFunction | kConstant
deriving DecidableEq

/-- `SYMBOL_KIND_MAP`: the fixed LSP symbol-kind table of client.py. -/
def SYMBOL_KIND_MAP : SymbolKind → Int
  | .kNamespace => 3
  | .kClass => 5
  | .kMethod => 6
  | .kProperty => 7
  | .kInterface => 11
  | .kFunction => 12
  | .kConstant => 14

/-! ## serena/cli/session.py — Session -/

/-- `SESSION_TTL_SECONDS = 1800`. -/
def SESSION_TTL_SECONDS : Int := 1800

/-- The `Session` dataclass (timestamps as integer clock readings). -/
structure Session where
  session_id : String
  server_url : String
  created_at : Int
  last_used : Int

/-- `Session.is_expired`: `(time.time() - self.last_used) > ttl`. -/
def Session.is_expired (s : Session) (now : Int) (ttl : Int := SESSION_TTL_SECONDS) : Bool :=
  (now - s.last_used) > ttl

/-- `Session.touch`: `self.last_used = time.time()`. -/
def Session.touch (s : Session) (now : Int) : Session :=
  { s with last_used := now }

/-! ## SerenaClient response decoding -/

/-- One iteration of the scan loop in `SerenaClient._parse_sse_response`:
for a line starting with `"data: "`, strip the marker, `json.loads` the
remainder and keep the payload when `data.get("id") == expected_id`;
every other case (no marker, decode error, missing or different id) falls
through to the next line. -/
def sse_line_match (line : String) (expected_id : Int) : Option Json :=
  if strStartsWith line "data: " then
    match json_loads (strDrop line 6) with
    | some data =>
      match data.getKey? "id" with
      | some (Json.num n) => if n = expected_id then some data else none
      | _ => none
    | none => none
  else none

/-- The `for line in text.split("\n")` scan of `_parse_sse_response`:
first matching frame wins. -/
def firstDataMatch : List String → Int → Option Json
  | [], _ => none
  | line :: rest, eid =>
    match sse_line_match line eid with
    | some d => some d
    | none => firstDataMatch rest eid

/-- `SerenaClient._parse_sse_response(text, expected_id)`: scan the framed
lines; on no match fall back to parsing the whole body as one JSON
document; on a second failure return the empty object. -/
def parse_sse_response (text : String) (expected_id : Int) : Json :=
  match firstDataMatch (split_newline text) expected_id with
  | some d => d
  | none => (json_loads text).getD (Json.obj [])

/-- `c.get("type") == "text"` filter of `_extract_result`. -/
def content_is_text (c : Json) : Bool :=
  match c.getKey? "type" with
  | some (Json.str t) => t = "text"
  | _ => false

/-- `c.get("text", "")` of `_extract_result` (the client only meets
string-valued `text` members). -/
def content_part_text (c : Json) : String :=
  match c.getKey? "text" with
  | some (Json.str t) => t
  | _ => ""

/-- `"\n".join(c.get("text", "") for c in content if c.get("type") == "text")`. -/
def join_text_content (parts : List Json) : String :=
  joinWith "\n" ((parts.filter content_is_text).map content_part_text)

/-- The `ToolError` raised by `_extract_result` on the truncation sentinel. -/
def truncation_hint_error : ToolError :=
  { message := Json.str "Too many results - use --path to restrict search",
    tool := "find_symbol",
    details := Json.obj [("hint", Json.str "Try: --path src/")] }

/-- `SerenaClient._extract_result(result)`: unwrap `structuredContent`
(with a second decode pass on string values), else join the text content
parts, else return the envelope unchanged; in both unwrapping branches a
text starting with `"The answer is too long"` raises `truncation_hint_error`
instead of being returned.  (A `content` member that is not a list makes
the Python loop raise a `TypeError`; that shape is outside the protocol and
is modelled as the empty part list.) -/
def extract_result (result : Json) : Except ToolError Json :=
  match result.getKey? "structuredContent" with
  | some content =>
    match content.getKey? "result" with
    | some (Json.str v) =>
      if strStartsWith v "The answer is too long" then Except.error truncation_hint_error
      else
        match json_loads v with
        | some j => Except.ok j
        | none => Except.ok (Json.str v)
    | some value => Except.ok value
    | none => Except.ok content
  | none =>
    match result.getKey? "content" with
    | some (Json.arr parts) =>
      let text := join_text_content parts
      if strStartsWith text "The answer is too long" then Except.error truncation_hint_error
      else Except.ok (Json.str text)
    | some _ => Except.ok (Json.str (join_text_content []))
    | none => Except.ok result

/-! ## SerenaClient._call_tool -/

/-- The mutable client attributes `_call_tool` reads and writes:
`_client` (modelled by its presence), `_session`, `_request_id`. -/
structure ClientState where
  connected : Bool
  session : Option Session
  request_id : Nat

/-- What the transport layer hands back for one POST: whether
`raise_for_status()` passed, `str(e)` for when it did not, and the body
`response.text`. -/
structure HttpResponse where
  status_ok : Bool
  status_text : String
  text : String

/-- Result of one `_call_tool` run: the updated client state, the request
payload that was posted (`none` when the call failed before sending), and
the returned `ToolResult` or raised exception. -/
structure CallOutcome where
  state : ClientState
  sent : Option Json
  outcome : Except SerenaError ToolResult

/-- The `tools/call` JSON-RPC payload built by `_call_tool`. -/
def call_tool_payload (request_id : Nat) (tool : String)
    (arguments : List (String × Json)) : Json :=
  Json.obj [("jsonrpc", Json.str "2.0"),
            ("id", Json.num request_id),
            ("method", Json.str "tools/call"),
            ("params", Json.obj [("name", Json.str tool),
                                 ("arguments", Json.obj arguments)])]

/-- `SerenaClient._call_tool(tool, arguments)` with the transport response
and the three `time.time()` readings (before the POST, after the POST, at
`session.touch`) passed explicitly. -/
def call_tool (st : ClientState) (tool : String) (arguments : List (String × Json))
    (resp : HttpResponse) (start_time finish_time touch_time : Int) : CallOutcome :=
  match st.connected, st.session with
  | true, some sess =>
    let rid := st.request_id + 1
    let st1 : ClientState := { st with request_id := rid }
    let payload := call_tool_payload rid tool arguments
    if resp.status_ok = false then
      { state := st1, sent := some payload,
        outcome := Except.error (SerenaError.toolError
          { message := Json.str ("HTTP error: " ++ resp.status_text),
            tool := tool, details := Json.obj [] }) }
    else
      let elapsed_ms := (finish_time - start_time) * 1000
      let data := parse_sse_response resp.text rid
      match data.getKey? "error" with
      | some err =>
        { state := st1, sent := some payload,
          outcome := Except.error (SerenaError.toolError
            { message := err.getKeyD "message" (Json.str "Unknown error"),
              tool := tool,
              details := Json.obj [("code", err.getKeyD "code" Json.null),
                                   ("data", err.getKeyD "data" Json.null)] }) }
      | none =>
        let result := data.getKeyD "result" (Json.obj [])
        match extract_result result with
        | Except.error e =>
          { state := st1, sent := some payload,
            outcome := Except.error (SerenaError.toolError e) }
        | Except.ok parsed =>
          { state := { st1 with session := some (sess.touch touch_time) },
            sent := some payload,
            outcome := Except.ok { data := parsed, tool := tool,
                                   elapsed_ms := elapsed_ms, request_id := rid } }
  | _, _ =>
    { state := st, sent := none,
      outcome := Except.error
        (SerenaError.sessionError "Not connected. Call connect() first.") }

/-! ## High-level wrappers: find_symbol, find_refs -/

/-- `result.data if isinstance(result.data, list) else []`. -/
def shape_list (data : Json) : List Json :=
  match data with
  | .arr xs => xs
  | _ => []

/-- The outbound argument dict built by `SerenaClient.find_symbol` (the
`if kind:` / `if path:` truthiness guards become the option matches; an
empty `path` string is falsy in Python and is therefore dropped). -/
def find_symbol_args (pattern : String) (kind : Option SymbolKind)
    (path : Option String) (body : Bool) (depth : Int) (exact : Bool) :
    List (String × Json) :=
  let args := [("name_path_pattern", Json.str pattern),
               ("substring_matching", Json.bool (!exact)),
               ("include_body", Json.bool body),
               ("depth", Json.num depth)]
  let args :=
    match kind with
    | some k => args ++ [("include_kinds", Json.arr [Json.num (SYMBOL_KIND_MAP k)])]
    | none => args
  match path with
  | some p => if p.isEmpty then args else args ++ [("relative_path", Json.str p)]
  | none => args

/-- Result shaping of `SerenaClient.find_refs`:
`data if all_refs else data[:10]` over the list-shaped payload. -/
def find_refs_result (data : Json) (all_refs : Bool) : List Json :=
  let d := shape_list data
  if all_refs then d else d.take 10

/-! ## serena/cli/session.py — SessionManager

The backing file holds one JSON object mapping server URL to session
fields; `_save_sessions` serialises exactly the in-memory dict and
`_load_sessions` parses it back, so the manager's operations are modelled
directly on the decoded mapping (`Store`).  The file-read fail-open path
(`_load_sessions` on a missing, unreadable or corrupt file) is modelled
separately on `FileState`. -/

/-- The decoded session file: `server_url → Session`, keys unique. -/
abbrev Store := List (String × Session)

/-- `Session.to_dict` (via `dataclasses.asdict`, field order). -/
def Session.to_dict (s : Session) : Json :=
  Json.obj [("session_id", Json.str s.session_id),
            ("server_url", Json.str s.server_url),
            ("created_at", Json.num s.created_at),
            ("last_used", Json.num s.last_used)]

/-- `Session.from_dict` = `Session(**data)`: succeeds exactly on an object
carrying the four dataclass fields and nothing else (Python raises
`TypeError` otherwise, modelled as `none`). -/
def Session.from_dict (j : Json) : Option Session :=
  match j with
  | .obj ms =>
    match alookup ms "session_id", alookup ms "server_url",
          alookup ms "created_at", alookup ms "last_used" with
    | some (Json.str sid), some (Json.str url), some (Json.num c), some (Json.num l) =>
      if ms.length = 4 then some { session_id := sid, server_url := url,
                                   created_at := c, last_used := l }
      else none
    | _, _, _, _ => none
  | _ => none

/-- `del sessions[server_url]` on the decoded mapping. -/
def eraseKeyStore (store : Store) (url : String) : Store :=
  store.filter (fun p => p.1 ≠ url)

/-- `sessions[server_url] = ...` on the decoded mapping: replace in place,
else append. -/
def setKeyStore : Store → String → Session → Store
  | [], url, s => [(url, s)]
  | (k, v) :: rest, url, s =>
    if k = url then (url, s) :: rest else (k, v) :: setKeyStore rest url s

/-- `SessionManager.clear_session(server_url)`. -/
def clear_session (store : Store) (url : String) : Store :=
  if (alookup store url).isSome then eraseKeyStore store url else store

/-- `SessionManager.get_session(server_url)`: absent key → `None`;
expired entry → `clear_session` side effect and `None`; otherwise the
stored session, store untouched. -/
def get_session (store : Store) (url : String) (now : Int) : Option Session × Store :=
  match alookup store url with
  | none => (none, store)
  | some s =>
    if s.is_expired now then (none, clear_session store url)
    else (some s, store)

/-- `SessionManager.save_session(session)`: touch, then write back under
`session.server_url`. -/
def save_session (store : Store) (session : Session) (now : Int) : Store :=
  let s := session.touch now
  setKeyStore store s.server_url s

/-- The observable states of the backing session file as `_load_sessions`
distinguishes them. -/
inductive FileState where
  | missing
  | unreadable
  | content (text : String)

/-- `SessionManager._load_sessions`: missing file → `\x7b\x7d`; `IOError`
or `json.JSONDecodeError` → `\x7b\x7d`; otherwise the parsed document. -/
def load_sessions (fs : FileState) : Json :=
  match fs with
  | .missing => Json.obj []
  | .unreadable => Json.obj []
  | .content text => (json_loads text).getD (Json.obj [])

/-- Decode the loaded JSON document into a `Store` (entries whose shape
`Session.from_dict` rejects are outside the protocol and are dropped). -/
def decode_store (j : Json) : Store :=
  match j with
  | .obj ms => ms.filterMap (fun p => (Session.from_dict p.2).map (fun s => (p.1, s)))
  | _ => []

/-! ## serena/connector.py — SerenaConnector circuit breaker -/

/-- `self._failure_threshold = 5`. -/
def failure_threshold : Nat := 5

/-- `self._reset_timeout = 30.0` (seconds). -/
def reset_timeout : Int := 30

/-- The connector attributes the circuit breaker reads and writes. -/
structure ConnectorState where
  healthy : Bool
  circuit_state : String
  failure_count : Nat
  last_failure_time : Int

/-- `SerenaConnector.__init__` fields. -/
def connector_init : ConnectorState :=
  { healthy := false, circuit_state := "closed",
    failure_count := 0, last_failure_time := 0 }

/-- The `circuit_state` property: an `open` state older than
`reset_timeout` flips to `half_open` before being reported. -/
def circuit_state_read (st : ConnectorState) (now : Int) : String × ConnectorState :=
  if st.circuit_state = "open" ∧ now - st.last_failure_time > reset_timeout then
    ("half_open", { st with circuit_state := "half_open" })
  else (st.circuit_state, st)

/-- `SerenaConnector._record_failure`. -/
def record_failure (st : ConnectorState) (now : Int) : ConnectorState :=
  let st1 := { st with failure_count := st.failure_count + 1, last_failure_time := now }
  if st1.failure_count ≥ failure_threshold then
    if st1.circuit_state ≠ "open" then { st1 with circuit_state := "open" } else st1
  else st1

/-- `SerenaConnector.check_health` with the probe outcome
(`await self._client.get_status()` succeeding or raising) explicit. -/
def check_health (st : ConnectorState) (has_client : Bool) (probe_ok : Bool)
    (now : Int) : Bool × ConnectorState :=
  if has_client = false then (false, st)
  else if probe_ok then
    let st1 := { st with healthy := true }
    if st1.circuit_state = "half_open" then
      (true, { st1 with circuit_state := "closed", failure_count := 0 })
    else (true, st1)
  else
    (false, record_failure { st with healthy := false } now)

/-! ## Supporting lemmas -/

theorem alookup_eraseKeyStore (store : Store) (url : String) :
    alookup (eraseKeyStore store url) url = none := by
  induction store with
  | nil => rfl
  | cons p rest ih =>
    by_cases h : p.1 = url
    · simpa [eraseKeyStore, List.filter, h] using ih
    · simpa [eraseKeyStore, List.filter, h, alookup] using ih

theorem alookup_setKeyStore (store : Store) (url : String) (s : Session) :
    alookup (setKeyStore store url s) url = some s := by
  induction store with
  | nil => simp [setKeyStore, alookup]
  | cons p rest ih =>
    by_cases h : p.1 = url
    · obtain ⟨k, v⟩ := p
      simp only at h
      simp [setKeyStore, h, alookup]
    · obtain ⟨k, v⟩ := p
      simp only at h
      simpa [setKeyStore, h, alookup] using ih

/-- Sanity for the decoded-store modelling: `Session.from_dict` inverts
`Session.to_dict`. -/
theorem from_dict_to_dict (s : Session) : Session.from_dict (Session.to_dict s) = some s :=
  rfl

theorem call_tool_inactive (st : ClientState) (tool : String)
    (args : List (String × Json)) (resp : HttpResponse) (t0 t1 t2 : Int)
    (h : st.connected = false ∨ st.session = none) :
    call_tool st tool args resp t0 t1 t2 =
      { state := st, sent := none,
        outcome := Except.error
          (SerenaError.sessionError "Not connected. Call connect() first.") } := by
  obtain ⟨conn, sess, rid⟩ := st
  rcases h with h | h
  · simp only at h
    subst h
    cases sess <;> rfl
  · simp only at h
    subst h
    cases conn <;> rfl

theorem call_tool_http_error (sess : Session) (rid : Nat) (tool : String)
    (args : List (String × Json)) (resp : HttpResponse) (t0 t1 t2 : Int)
    (hok : resp.status_ok = false) :
    call_tool ⟨true, some sess, rid⟩ tool args resp t0 t1 t2 =
      { state := ⟨true, some sess, rid + 1⟩,
        sent := some (call_tool_payload (rid + 1) tool args),
        outcome := Except.error (SerenaError.toolError
          { message := Json.str ("HTTP error: " ++ resp.status_text),
            tool := tool, details := Json.obj [] }) } := by
  simp [call_tool, hok]

theorem call_tool_remote_error (sess : Session) (rid : Nat) (tool : String)
    (args : List (String × Json)) (resp : HttpResponse) (t0 t1 t2 : Int) (err : Json)
    (hok : resp.status_ok = true)
    (herr : (parse_sse_response resp.text (rid + 1)).getKey? "error" = some err) :
    call_tool ⟨true, some sess, rid⟩ tool args resp t0 t1 t2 =
      { state := ⟨true, some sess, rid + 1⟩,
        sent := some (call_tool_payload (rid + 1) tool args),
        outcome := Except.error (SerenaError.toolError
          { message := err.getKeyD "message" (Json.str "Unknown error"),
            tool := tool,
            details := Json.obj [("code", err.getKeyD "code" Json.null),
                                 ("data", err.getKeyD "data" Json.null)] }) } := by
  simp [call_tool, hok, herr]

theorem call_tool_ok (sess : Session) (rid : Nat) (tool : String)
    (args : List (String × Json)) (resp : HttpResponse) (t0 t1 t2 : Int) (parsed : Json)
    (hok : resp.status_ok = true)
    (herr : (parse_sse_response resp.text (rid + 1)).getKey? "error" = none)
    (hex : extract_result
        ((parse_sse_response resp.text (rid + 1)).getKeyD "result" (Json.obj []))
      = Except.ok parsed) :
    call_tool ⟨true, some sess, rid⟩ tool args resp t0 t1 t2 =
      { state := ⟨true, some (sess.touch t2), rid + 1⟩,
        sent := some (call_tool_payload (rid + 1) tool args),
        outcome := Except.ok { data := parsed, tool := tool,
                               elapsed_ms := (t1 - t0) * 1000,
                               request_id := rid + 1 } } := by
  simp [call_tool, hok, herr, hex]

theorem call_tool_extract_error (sess : Session) (rid : Nat) (tool : String)
    (args : List (String × Json)) (resp : HttpResponse) (t0 t1 t2 : Int) (e : ToolError)
    (hok : resp.status_ok = true)
    (herr : (parse_sse_response resp.text (rid + 1)).getKey? "error" = none)
    (hex : extract_result
        ((parse_sse_response resp.text (rid + 1)).getKeyD "result" (Json.obj []))
      = Except.error e) :
    call_tool ⟨true, some sess, rid⟩ tool args resp t0 t1 t2 =
      { state := ⟨true, some sess, rid + 1⟩,
        sent := some (call_tool_payload (rid + 1) tool args),
        outcome := Except.error (SerenaError.toolError e) } := by
  simp [call_tool, hok, herr, hex]

theorem call_tool_payload_id (rid : Nat) (tool : String)
    (args : List (String × Json)) :
    (call_tool_payload rid tool args).getKey? "id" = some (Json.num rid) :=
  rfl

/-! ## Claim theorems -/

/-- C9: `find_symbol("Customer", kind="class")` (exact not requested)
builds outbound arguments containing `include_kinds=[5]` — from the fixed
kind table mapping `class` to 5 — and `substring_matching=true`. -/
theorem C9_find_symbol_class_args :
    alookup (find_symbol_args "Customer" (some SymbolKind.kClass) none false 0 false)
        "include_kinds" = some (Json.arr [Json.num 5])
  ∧ alookup (find_symbol_args "Customer" (some SymbolKind.kClass) none false 0 false)
        "substring_matching" = some (Json.bool true)
  ∧ SYMBOL_KIND_MAP SymbolKind.kClass = 5 :=
  ⟨rfl, rfl, rfl⟩

/-- C10: when no framed line matches, the fallback parses the whole body as
one JSON document and returns it without checking its `id`: a bare-JSON
body with id 1 queried with expected id 2 is returned as-is. -/
theorem C10_fallback_ignores_id :
    parse_sse_response "\x7b\"id\": 1\x7d" 2 = Json.obj [("id", Json.num 1)]
  ∧ (Json.obj [("id", Json.num 1)]).getKey? "id" ≠ some (Json.num 2) := by
  refine ⟨rfl, ?_⟩
  simp [Json.getKey?, alookup]

/-- C8: `find_refs` without `all_refs` returns the first at-most-10
entries of the remote result list (`data[:10]`), and the full list when
`all_refs` is requested. -/
theorem C8_find_refs_cap (data : Json) :
    find_refs_result data false = (shape_list data).take 10
  ∧ find_refs_result data true = shape_list data
  ∧ (find_refs_result data false).length ≤ 10 := by
  refine ⟨rfl, rfl, ?_⟩
  exact List.length_take_le 10 (shape_list data)

/-- Witness for C8 on a twelve-entry remote result list. -/
theorem C8_find_refs_cap_witness :
    find_refs_result (Json.arr [Json.num 1, Json.num 2, Json.num 3, Json.num 4,
        Json.num 5, Json.num 6, Json.num 7, Json.num 8, Json.num 9, Json.num 10,
        Json.num 11, Json.num 12]) false
      = [Json.num 1, Json.num 2, Json.num 3, Json.num 4, Json.num 5, Json.num 6,
         Json.num 7, Json.num 8, Json.num 9, Json.num 10]
  ∧ find_refs_result (Json.arr [Json.num 1, Json.num 2, Json.num 3, Json.num 4,
        Json.num 5, Json.num 6, Json.num 7, Json.num 8, Json.num 9, Json.num 10,
        Json.num 11, Json.num 12]) true
      = [Json.num 1, Json.num 2, Json.num 3, Json.num 4, Json.num 5, Json.num 6,
         Json.num 7, Json.num 8, Json.num 9, Json.num 10, Json.num 11, Json.num 12] := by
  have h := C8_find_refs_cap (Json.arr [Json.num 1, Json.num 2, Json.num 3,
    Json.num 4, Json.num 5, Json.num 6, Json.num 7, Json.num 8, Json.num 9,
    Json.num 10, Json.num 11, Json.num 12])
  exact ⟨h.1.trans rfl, h.2.1.trans rfl⟩

/-- C5: a stored session whose `last_used` is older than the TTL (1800 s)
makes `get_session` return absent and remove the entry — so a second get
for the same URL also finds nothing — while a session within the TTL is
returned unchanged. -/
theorem C5_expired_session_removed (store : Store) (url : String) (now : Int)
    (s : Session) (hfind : alookup store url = some s) :
    (s.is_expired now = true →
        get_session store url now = (none, eraseKeyStore store url)
      ∧ get_session (eraseKeyStore store url) url now
          = (none, eraseKeyStore store url))
  ∧ (s.is_expired now = false →
        get_session store url now = (some s, store)) := by
  constructor
  · intro hexp
    constructor
    · simp [get_session, hfind, hexp, clear_session]
    · simp [get_session, alookup_eraseKeyStore]
  · intro hok
    simp [get_session, hfind, hok]

/-- Witness for C5 at a concrete store: one entry last used at time 0,
queried at time 2000 (past the 1800 s TTL). -/
theorem C5_expired_session_removed_witness :
    get_session [("u", { session_id := "sid", server_url := "u",
                         created_at := 0, last_used := 0 })] "u" 2000
      = (none, [])
  ∧ get_session ([] : Store) "u" 2000 = (none, []) := by
  have h := (C5_expired_session_removed
    [("u", { session_id := "sid", server_url := "u",
             created_at := 0, last_used := 0 })] "u" 2000
    { session_id := "sid", server_url := "u", created_at := 0, last_used := 0 }
    rfl).1 rfl
  exact ⟨h.1, h.2⟩

/-- C6: saving a session and immediately retrieving it for the same server
URL yields an equal `session_id` and a `last_used` not earlier than its
value at save time (save touches before persisting).  Hypotheses: the
clock at save is not before the session's recorded `last_used`, and the
get happens within the TTL of the save. -/
theorem C6_save_get_roundtrip (store : Store) (s : Session) (t_save t_get : Int)
    (h1 : s.last_used ≤ t_save) (h2 : t_get - t_save ≤ SESSION_TTL_SECONDS) :
    get_session (save_session store s t_save) s.server_url t_get
      = (some (s.touch t_save), save_session store s t_save)
  ∧ (s.touch t_save).session_id = s.session_id
  ∧ s.last_used ≤ (s.touch t_save).last_used := by
  refine ⟨?_, rfl, h1⟩
  have hfind : alookup (save_session store s t_save) s.server_url
      = some (s.touch t_save) := by
    simp [save_session, Session.touch, alookup_setKeyStore]
  have hexp : (s.touch t_save).is_expired t_get = false := by
    simp only [Session.is_expired, Session.touch, decide_eq_false_iff_not, not_lt]
    omega
  simp [get_session, hfind, hexp]

/-- Witness for C6: save at time 10, get at time 20. -/
theorem C6_save_get_roundtrip_witness :
    get_session (save_session [] { session_id := "abc", server_url := "u",
                                   created_at := 0, last_used := 5 } 10) "u" 20
      = (some { session_id := "abc", server_url := "u",
                created_at := 0, last_used := 10 },
         [("u", { session_id := "abc", server_url := "u",
                  created_at := 0, last_used := 10 })]) :=
  (C6_save_get_roundtrip []
    { session_id := "abc", server_url := "u", created_at := 0, last_used := 5 }
    10 20 (by norm_num) (by norm_num [SESSION_TTL_SECONDS])).1

/-- C7: a corrupt (invalid JSON) or unreadable backing file is treated as
an empty store: `_load_sessions` yields the empty object and a get returns
absent, with no error raised. -/
theorem C7_corrupt_store_fail_open (fs : FileState) (url : String) (now : Int)
    (h : fs = FileState.unreadable
       ∨ ∃ t, fs = FileState.content t ∧ json_loads t = none) :
    load_sessions fs = Json.obj []
  ∧ get_session (decode_store (load_sessions fs)) url now = (none, []) := by
  rcases h with h | ⟨t, rfl, ht⟩
  · subst h
    exact ⟨rfl, rfl⟩
  · constructor
    · simp [load_sessions, ht]
    · simp [load_sessions, ht, decode_store, get_session, alookup]

/-- Witness for C7: a file holding text that is not JSON. -/
theorem C7_corrupt_store_fail_open_witness :
    load_sessions (FileState.content "not json") = Json.obj []
  ∧ get_session (decode_store (load_sessions (FileState.content "not json")))
      "http://localhost:9121/mcp" 0 = (none, []) :=
  C7_corrupt_store_fail_open (FileState.content "not json")
    "http://localhost:9121/mcp" 0 (Or.inr ⟨"not json", rfl, rfl⟩)

/-- C2: the connector's circuit breaker walks the three-state machine.
From the initial closed state, after 5 recorded failures (last one at
time `t`) a `circuit_state` read at `r1` (within `reset_timeout` of `t`)
returns `"open"`; a read at `r2`, more than `reset_timeout` after `t`,
returns `"half_open"`; from that state a successful `check_health` yields
`"closed"` with `failure_count = 0`, while a recorded failure returns the
state to `"open"` and refreshes `last_failure_time`. -/
theorem C2_circuit_breaker_cycle (t r1 r2 t3 : Int)
    (h1 : r1 - t ≤ reset_timeout) (h2 : r2 - t > reset_timeout) :
    (circuit_state_read (record_failure (record_failure (record_failure
        (record_failure (record_failure connector_init t) t) t) t) t) r1).1 = "open"
  ∧ (circuit_state_read (record_failure (record_failure (record_failure
        (record_failure (record_failure connector_init t) t) t) t) t) r2)
      = ("half_open", { healthy := false, circuit_state := "half_open",
                        failure_count := 5, last_failure_time := t })
  ∧ check_health { healthy := false, circuit_state := "half_open",
                   failure_count := 5, last_failure_time := t } true true t3
      = (true, { healthy := true, circuit_state := "closed",
                 failure_count := 0, last_failure_time := t })
  ∧ record_failure { healthy := false, circuit_state := "half_open",
                     failure_count := 5, last_failure_time := t } t3
      = { healthy := false, circuit_state := "open",
          failure_count := 6, last_failure_time := t3 } := by
  have hst5 : record_failure (record_failure (record_failure
      (record_failure (record_failure connector_init t) t) t) t) t
      = { healthy := false, circuit_state := "open",
          failure_count := 5, last_failure_time := t } := rfl
  refine ⟨?_, ?_, rfl, rfl⟩
  · rw [hst5]
    unfold circuit_state_read
    rw [if_neg]
    rintro ⟨-, hlt⟩
    dsimp only at hlt
    omega
  · rw [hst5]
    unfold circuit_state_read
    rw [if_pos ⟨rfl, h2⟩]

/-- Witness for C2: failures at time 0, first read at 10, second at 40,
probe and refreshed failure at 50. -/
theorem C2_circuit_breaker_cycle_witness :
    (circuit_state_read (record_failure (record_failure (record_failure
        (record_failure (record_failure connector_init 0) 0) 0) 0) 0) 10).1 = "open"
  ∧ (circuit_state_read (record_failure (record_failure (record_failure
        (record_failure (record_failure connector_init 0) 0) 0) 0) 0) 40)
      = ("half_open", { healthy := false, circuit_state := "half_open",
                        failure_count := 5, last_failure_time := 0 })
  ∧ check_health { healthy := false, circuit_state := "half_open",
                   failure_count := 5, last_failure_time := 0 } true true 50
      = (true, { healthy := true, circuit_state := "closed",
                 failure_count := 0, last_failure_time := 0 })
  ∧ record_failure { healthy := false, circuit_state := "half_open",
                     failure_count := 5, last_failure_time := 0 } 50
      = { healthy := false, circuit_state := "open",
          failure_count := 6, last_failure_time := 50 } :=
  C2_circuit_breaker_cycle 0 10 40 50
    (by norm_num [reset_timeout]) (by norm_num [reset_timeout])

/-- C3: whenever the unwrapped text — the string in the structured-content
`result` field, or, with no structured content, the joined text-typed
content parts — starts with `"The answer is too long"`, `extract_result`
raises the `ToolError` whose details carry the path-restriction hint, and
never returns that text as data. -/
theorem C3_truncation_sentinel (result : Json) (v : String)
    (h : (∃ content, result.getKey? "structuredContent" = some content
            ∧ content.getKey? "result" = some (Json.str v))
       ∨ (result.getKey? "structuredContent" = none
          ∧ ∃ parts, result.getKey? "content" = some (Json.arr parts)
            ∧ join_text_content parts = v))
    (hs : strStartsWith v "The answer is too long" = true) :
    extract_result result = Except.error truncation_hint_error
  ∧ truncation_hint_error.details.getKey? "hint" = some (Json.str "Try: --path src/") := by
  refine ⟨?_, rfl⟩
  rcases h with ⟨content, hc, hr⟩ | ⟨hnone, parts, hc, hv⟩
  · simp [extract_result, hc, hr, hs]
  · simp [extract_result, hnone, hc, hv, hs]

/-- Witness for C3: a structured payload whose `result` field is the
literal truncated-answer string. -/
theorem C3_truncation_sentinel_witness :
    extract_result (Json.obj [("structuredContent",
        Json.obj [("result", Json.str "The answer is too long: 120000 chars")])])
      = Except.error truncation_hint_error :=
  (C3_truncation_sentinel
    (Json.obj [("structuredContent",
        Json.obj [("result", Json.str "The answer is too long: 120000 chars")])])
    "The answer is too long: 120000 chars"
    (Or.inl ⟨Json.obj [("result", Json.str "The answer is too long: 120000 chars")],
      rfl, rfl⟩)
    rfl).1

/-- C4: `_parse_sse_response` scans the `data: `-framed lines in order,
returning the first JSON payload whose id equals the expected id and
skipping lines that do not match (wrong marker, malformed JSON, absent or
different id); the given two-frame body queried with expected id 2 yields
exactly the id-2 frame; with no framed match the whole body is parsed as a
single JSON document, and if that also fails the empty object is returned
rather than an error. -/
theorem C4_decode_response :
    (∀ line rest eid, sse_line_match line eid = none →
        firstDataMatch (line :: rest) eid = firstDataMatch rest eid)
  ∧ (∀ line rest eid d, sse_line_match line eid = some d →
        firstDataMatch (line :: rest) eid = some d)
  ∧ (∀ text eid d, firstDataMatch (split_newline text) eid = some d →
        parse_sse_response text eid = d)
  ∧ (∀ text eid j, firstDataMatch (split_newline text) eid = none →
        json_loads text = some j → parse_sse_response text eid = j)
  ∧ (∀ text eid, firstDataMatch (split_newline text) eid = none →
        json_loads text = none → parse_sse_response text eid = Json.obj [])
  ∧ parse_sse_response
        "event: message\ndata: \x7b\"id\": 1\x7d\ndata: \x7b\"id\": 2\x7d" 2
      = Json.obj [("id", Json.num 2)] := by
  refine ⟨?_, ?_, ?_, ?_, ?_, rfl⟩
  · intro line rest eid h
    simp [firstDataMatch, h]
  · intro line rest eid d h
    simp [firstDataMatch, h]
  · intro text eid d h
    simp [parse_sse_response, h]
  · intro text eid j h hj
    simp [parse_sse_response, h, hj]
  · intro text eid h hj
    simp [parse_sse_response, h, hj]

/-- Witness for C4, exercising the bare-JSON fallback clause at a concrete
body with no framed lines. -/
theorem C4_decode_response_witness :
    parse_sse_response "\x7b\"jsonrpc\": \"2.0\", \"id\": 7\x7d" 7
      = Json.obj [("jsonrpc", Json.str "2.0"), ("id", Json.num 7)] :=
  C4_decode_response.2.2.2.1 "\x7b\"jsonrpc\": \"2.0\", \"id\": 7\x7d" 7
    (Json.obj [("jsonrpc", Json.str "2.0"), ("id", Json.num 7)]) rfl rfl

/-- C1: `_call_tool` with no active session (no transport client or no
session) raises `SessionError`; with an active session it posts a request
carrying the fresh per-instance id `request_id + 1`, raises a `ToolError`
tagged with the tool name on a non-success HTTP status, raises a
`ToolError` carrying the remote message, numeric code and auxiliary data
when the decoded envelope has an `error` member, and otherwise unwraps the
result, touches the session's `last_used`, and returns a `ToolResult`. -/
theorem C1_call_tool_contract (st : ClientState) (tool : String)
    (args : List (String × Json)) (resp : HttpResponse) (t0 t1 t2 : Int) :
    (st.connected = false ∨ st.session = none →
       call_tool st tool args resp t0 t1 t2 =
         { state := st, sent := none,
           outcome := Except.error
             (SerenaError.sessionError "Not connected. Call connect() first.") })
  ∧ (∀ sess, st.connected = true → st.session = some sess →
       ((call_tool st tool args resp t0 t1 t2).sent
           = some (call_tool_payload (st.request_id + 1) tool args)
         ∧ (call_tool_payload (st.request_id + 1) tool args).getKey? "id"
           = some (Json.num (st.request_id + 1)))
     ∧ (resp.status_ok = false →
          (call_tool st tool args resp t0 t1 t2).outcome
            = Except.error (SerenaError.toolError
                { message := Json.str ("HTTP error: " ++ resp.status_text),
                  tool := tool, details := Json.obj [] }))
     ∧ (∀ err, resp.status_ok = true →
          (parse_sse_response resp.text (st.request_id + 1)).getKey? "error"
            = some err →
          (call_tool st tool args resp t0 t1 t2).outcome
            = Except.error (SerenaError.toolError
                { message := err.getKeyD "message" (Json.str "Unknown error"),
                  tool := tool,
                  details := Json.obj [("code", err.getKeyD "code" Json.null),
                                       ("data", err.getKeyD "data" Json.null)] }))
     ∧ (∀ parsed, resp.status_ok = true →
          (parse_sse_response resp.text (st.request_id + 1)).getKey? "error"
            = none →
          extract_result ((parse_sse_response resp.text (st.request_id + 1)).getKeyD
              "result" (Json.obj []))
            = Except.ok parsed →
          call_tool st tool args resp t0 t1 t2 =
            { state := { connected := true, session := some (sess.touch t2),
                         request_id := st.request_id + 1 },
              sent := some (call_tool_payload (st.request_id + 1) tool args),
              outcome := Except.ok { data := parsed, tool := tool,
                                     elapsed_ms := (t1 - t0) * 1000,
                                     request_id := st.request_id + 1 } })) := by
  obtain ⟨conn, s0, rid⟩ := st
  constructor
  · intro h
    exact call_tool_inactive ⟨conn, s0, rid⟩ tool args resp t0 t1 t2 h
  · intro sess hconn hsess
    simp only at hconn hsess
    subst hconn
    subst hsess
    refine ⟨⟨?_, call_tool_payload_id (rid + 1) tool args⟩, ?_, ?_, ?_⟩
    · cases hok : resp.status_ok
      · rw [call_tool_http_error sess rid tool args resp t0 t1 t2 hok]
      · cases herr : (parse_sse_response resp.text (rid + 1)).getKey? "error" with
        | some err =>
          rw [call_tool_remote_error sess rid tool args resp t0 t1 t2 err hok herr]
        | none =>
          cases hex : extract_result ((parse_sse_response resp.text (rid + 1)).getKeyD
              "result" (Json.obj [])) with
          | error e =>
            rw [call_tool_extract_error sess rid tool args resp t0 t1 t2 e hok herr hex]
          | ok parsed =>
            rw [call_tool_ok sess rid tool args resp t0 t1 t2 parsed hok herr hex]
    · intro hok
      rw [call_tool_http_error sess rid tool args resp t0 t1 t2 hok]
    · intro err hok herr
      rw [call_tool_remote_error sess rid tool args resp t0 t1 t2 err hok herr]
    · intro parsed hok herr hex
      rw [call_tool_ok sess rid tool args resp t0 t1 t2 parsed hok herr hex]

/-- Witness for C1: a successful call against a connected client whose
response frame carries the fresh id 1 and a structured `"pong"` result,
and a `SessionError` for the never-connected client. -/
theorem C1_call_tool_contract_witness :
    call_tool ⟨true, some ⟨"abc123", "u", 0, 0⟩, 0⟩ "ping_tool" []
        ⟨true, "", "data: \x7b\"id\": 1, \"result\": \x7b\"structuredContent\": \x7b\"result\": \"pong\"\x7d\x7d\x7d"⟩
        100 140 150
      = { state := ⟨true, some ⟨"abc123", "u", 0, 150⟩, 1⟩,
          sent := some (call_tool_payload 1 "ping_tool" []),
          outcome := Except.ok { data := Json.str "pong", tool := "ping_tool",
                                 elapsed_ms := 40000, request_id := 1 } }
  ∧ (call_tool ⟨false, none, 0⟩ "ping_tool" []
        ⟨true, "", ""⟩ 100 140 150).outcome
      = Except.error
          (SerenaError.sessionError "Not connected. Call connect() first.") := by
  constructor
  · exact (C1_call_tool_contract ⟨true, some ⟨"abc123", "u", 0, 0⟩, 0⟩ "ping_tool" []
      ⟨true, "", "data: \x7b\"id\": 1, \"result\": \x7b\"structuredContent\": \x7b\"result\": \"pong\"\x7d\x7d\x7d"⟩
      100 140 150).2 ⟨"abc123", "u", 0, 0⟩ rfl rfl
      |>.2.2.2 (Json.str "pong") rfl rfl rfl
  · rw [(C1_call_tool_contract ⟨false, none, 0⟩ "ping_tool" []
      ⟨true, "", ""⟩ 100 140 150).1 (Or.inl rfl)]

end SerenaSpec
